import Mathlib

/-!
Verification of `examples/sed.py` from the synthesizer repository.

The script is a linear Python program:

    script_path = os.path.abspath(os.path.dirname(__file__))
    grid_name = "test_grid"
    grid_dir = script_path + "/../tests/test_grid/"
    grid = Grid(grid_name, grid_dir=grid_dir)
    sed1 = grid.get_sed(5, 5)
    sed2 = grid.get_sed(3, 5)
    sed = sed1 + sed2

`Grid` and `Sed` come from the external `synthesizer` library which is not
part of this source excerpt, so the script is embedded as a pure function
over an abstract environment `Env` describing the behaviour of those
collaborators (each fallible operation returns `Except`).  The run also
records the trace of observable calls the script makes, so that structural
claims (how often the grid is queried, what is passed to the constructor,
absence of output effects) can be stated and proved.

For claims about the collaborators' own contracts (which live outside
`src/`), a concrete model of the `Grid`/`Sed` library is built from the
specification's words; those definitions carry a `Modelled from the spec:`
doc comment.
-/

namespace SedScript

/-- Ambient process inputs a Python script could consult (command-line
arguments via `sys.argv`, environment variables via `os.environ`).  The
script imports `sys` and `os` but never reads either source of input;
`runScript` accordingly ignores its `World` argument. -/
structure World where
  cliArgs : List String
  envVars : String → Option String

/-- A `World` with no command-line arguments and no environment variables. -/
def emptyWorld : World := { cliArgs := [], envVars := fun _ => none }

/-- Observable effects in the script's effect vocabulary: the three
collaborator calls the script can make, plus the output effects
(printing, file writing) that a script could perform but this one never
does. -/
inductive Event where
  | mkGrid (name gdir : String)
  | getSed (ia iZ : Int)
  | addSed
  | printOut (s : String)
  | writeFile (path contents : String)
deriving DecidableEq, Repr

/-- The `(ia, iZ)` arguments of a grid lookup event, if the event is one. -/
def Event.gridQuery? : Event → Option (Int × Int)
  | .getSed ia iZ => some (ia, iZ)
  | _ => none

/-- The `(name, grid_dir)` arguments of a grid construction event, if the
event is one. -/
def Event.construction? : Event → Option (String × String)
  | .mkGrid n d => some (n, d)
  | _ => none

/-- Whether an event is the Sed addition. -/
def Event.isAdd : Event → Bool
  | .addSed => true
  | _ => false

/-- Whether an event is a call into the grid library (as opposed to an
output effect such as printing or writing a file). -/
def Event.isLibraryCall : Event → Bool
  | .mkGrid _ _ => true
  | .getSed _ _ => true
  | .addSed => true
  | .printOut _ => false
  | .writeFile _ _ => false

/-- The grid lookups recorded in a trace, in order. -/
def gridQueries (t : List Event) : List (Int × Int) :=
  t.filterMap Event.gridQuery?

/-- The grid constructions recorded in a trace, in order. -/
def constructions (t : List Event) : List (String × String) :=
  t.filterMap Event.construction?

/-- The number of Sed additions recorded in a trace. -/
def additions (t : List Event) : Nat :=
  (t.filter Event.isAdd).length

/-- The behaviour of the external collaborators, over abstract types for
grids (`G`), SEDs (`S`) and errors (`E`):
`file` is `__file__`; `dirname` and `abspath` model `os.path.dirname` and
`os.path.abspath`; `mkGrid name gdir` models `Grid(name, grid_dir=gdir)`;
`getSed g ia iZ` models `g.get_sed(ia, iZ)`; `addSed a b` models `a + b`
on Sed objects.  Each operation may raise, modelled by `Except`. -/
structure Env (G S E : Type) where
  file : String
  dirname : String → String
  abspath : String → String
  mkGrid : String → String → Except E G
  getSed : G → Int → Int → Except E S
  addSed : S → S → Except E S

/-- `script_path = os.path.abspath(os.path.dirname(__file__))`. -/
def script_path {G S E : Type} (env : Env G S E) : String :=
  env.abspath (env.dirname env.file)

/-- `grid_name = "test_grid"`. -/
def grid_name : String := "test_grid"

/-- `grid_dir = script_path + "/../tests/test_grid/"`. -/
def grid_dir {G S E : Type} (env : Env G S E) : String :=
  script_path env ++ "/../tests/test_grid/"

/-- The script, embedded as a function of the collaborator environment and
the ambient world.  It returns the trace of observable calls together with
the outcome: the final value `sed` on success, or the first collaborator
error (a raised Python exception stops the script at the failing line, so
later calls do not happen and their events are not recorded).  The `World`
argument is never consulted, exactly as the script reads no command-line
arguments and no environment variables. -/
def runScript {G S E : Type} (env : Env G S E) (_w : World) :
    List Event × Except E S :=
  match env.mkGrid grid_name (grid_dir env) with
  | .error e => ([.mkGrid grid_name (grid_dir env)], .error e)
  | .ok grid =>
    match env.getSed grid 5 5 with
    | .error e =>
        ([.mkGrid grid_name (grid_dir env), .getSed 5 5], .error e)
    | .ok sed1 =>
      match env.getSed grid 3 5 with
      | .error e =>
          ([.mkGrid grid_name (grid_dir env), .getSed 5 5, .getSed 3 5],
            .error e)
      | .ok sed2 =>
        match env.addSed sed1 sed2 with
        | .error e =>
            ([.mkGrid grid_name (grid_dir env), .getSed 5 5, .getSed 3 5,
              .addSed], .error e)
        | .ok sed =>
            ([.mkGrid grid_name (grid_dir env), .getSed 5 5, .getSed 3 5,
              .addSed], .ok sed)

/-- Modelled from the spec: the `synthesizer.sed.Sed` class is absent from
this excerpt.  The spec calls it "a spectral energy distribution value
object returned by a grid lookup"; its internals are left open, so it is
modelled as a value object carrying an abstract tag. -/
structure Sed where
  tag : Nat
deriving DecidableEq, Repr

/-- Modelled from the spec: `Sed` "supports a binary addition operation
producing a new Sed".  The spec leaves the numeric semantics open and
forbids guessing them; only totality (the operation always produces a new
Sed) is modelled, with an arbitrary combination of the tags. -/
def Sed.add (a b : Sed) : Sed := ⟨a.tag + b.tag⟩

/-- Modelled from the spec: errors the external grid library can raise,
"missing/unreadable grid directory" during construction and an
"index-range error" for out-of-range lookups. -/
inductive GridError where
  | missingGrid (name gdir : String)
  | indexOutOfRange (ia iZ : Int)
deriving DecidableEq, Repr

/-- Modelled from the spec: the `synthesizer.grid.Grid` class is absent
from this excerpt.  The spec calls it "a named, directory-backed resource
indexed by two integer coordinates (age index `ia`, metallicity index
`iZ`)", i.e. a lookup table of Seds with an age dimension `nAge` and a
metallicity dimension `nZ`. -/
structure Grid where
  name : String
  gdir : String
  nAge : Nat
  nZ : Nat
  sedAt : Nat → Nat → Sed

/-- Modelled from the spec: `grid.get_sed(ia, iZ)` returns the stored Sed
at the given coordinates; "using out-of-range indices (e.g., negative or
beyond grid dimensions) should fail with an index-range error". -/
def Grid.get_sed (g : Grid) (ia iZ : Int) : Except GridError Sed :=
  if 0 ≤ ia ∧ ia < (g.nAge : Int) ∧ 0 ≤ iZ ∧ iZ < (g.nZ : Int) then
    .ok (g.sedAt ia.toNat iZ.toNat)
  else
    .error (.indexOutOfRange ia iZ)

/-- Modelled from the spec: `Grid(name, grid_dir)` binds to "a named grid
resource located in that directory"; a "missing/unreadable grid directory"
raises.  `store` models the on-disk grid resources as a partial map from
(name, directory) to the stored grid. -/
def Grid.construct (store : String → String → Option Grid)
    (name gdir : String) : Except GridError Grid :=
  match store name gdir with
  | some g => .ok g
  | none => .error (.missingGrid name gdir)

/-- The collaborator environment induced by the spec-modelled library: a
given on-disk store, `__file__` and the path functions. -/
def specEnv (store : String → String → Option Grid)
    (file0 : String) (dn ap : String → String) : Env Grid Sed GridError :=
  { file := file0
    dirname := dn
    abspath := ap
    mkGrid := Grid.construct store
    getSed := Grid.get_sed
    addSed := fun a b => .ok (a.add b) }

/-- A concrete 10 × 10 grid used to instantiate theorems. -/
def testGrid : Grid :=
  { name := grid_name
    gdir := "/repo/examples/../tests/test_grid/"
    nAge := 10
    nZ := 10
    sedAt := fun ia iZ => ⟨10 * ia + iZ⟩ }

/-- A concrete on-disk store holding exactly `testGrid` under the name
`test_grid` at the directory the script derives. -/
def testStore : String → String → Option Grid := fun n d =>
  if n = "test_grid" ∧ d = "/repo/examples/../tests/test_grid/" then
    some testGrid
  else
    none

/-- A concrete environment in which every collaborator call succeeds. -/
def testEnv : Env Grid Sed GridError :=
  specEnv testStore "/repo/examples/sed.py" (fun _ => "/repo/examples")
    (fun s => s)

/-- A concrete store with no grids at all, so construction fails. -/
def bareStore : String → String → Option Grid := fun _ _ => none

/-- A concrete environment in which the grid directory is missing. -/
def bareEnv : Env Grid Sed GridError :=
  specEnv bareStore "/repo/examples/sed.py" (fun _ => "/repo/examples")
    (fun s => s)

/-- Helper: the four possible traces of a run, one per stopping point. -/
lemma runScript_trace_cases {G S E : Type} (env : Env G S E) (w : World) :
    (runScript env w).1 = [.mkGrid grid_name (grid_dir env)] ∨
    (runScript env w).1 = [.mkGrid grid_name (grid_dir env), .getSed 5 5] ∨
    (runScript env w).1 =
      [.mkGrid grid_name (grid_dir env), .getSed 5 5, .getSed 3 5] ∨
    (runScript env w).1 =
      [.mkGrid grid_name (grid_dir env), .getSed 5 5, .getSed 3 5,
        .addSed] := by
  unfold runScript
  split
  · exact Or.inl rfl
  · split
    · exact Or.inr (Or.inl rfl)
    · split
      · exact Or.inr (Or.inr (Or.inl rfl))
      · split
        · exact Or.inr (Or.inr (Or.inr rfl))
        · exact Or.inr (Or.inr (Or.inr rfl))

/-- Helper: a successful run determines the full trace and exhibits the
collaborator results it was built from. -/
lemma runScript_ok_elim {G S E : Type} (env : Env G S E) (w : World) (sed : S)
    (h : (runScript env w).2 = .ok sed) :
    (runScript env w).1 =
      [.mkGrid grid_name (grid_dir env), .getSed 5 5, .getSed 3 5,
        .addSed] ∧
    ∃ g s1 s2,
      env.mkGrid grid_name (grid_dir env) = .ok g ∧
      env.getSed g 5 5 = .ok s1 ∧
      env.getSed g 3 5 = .ok s2 ∧
      env.addSed s1 s2 = .ok sed := by
  unfold runScript at h ⊢
  split at h
  next e heq => simp at h
  next g heq =>
    split at h
    next e h1 => simp at h
    next s1 h1 =>
      split at h
      next e h2 => simp at h
      next s2 h2 =>
        split at h
        next e h3 => simp at h
        next s h3 =>
          simp only [Except.ok.injEq] at h
          subst h
          exact ⟨by simp only [heq, h1, h2, h3],
            g, s1, s2, heq, h1, h2, h3⟩

/-- Helper: when every collaborator call succeeds, the run succeeds with
the added Sed. -/
lemma runScript_ok_intro {G S E : Type} (env : Env G S E) (w : World)
    (g : G) (s1 s2 s : S)
    (hg : env.mkGrid grid_name (grid_dir env) = .ok g)
    (h1 : env.getSed g 5 5 = .ok s1)
    (h2 : env.getSed g 3 5 = .ok s2)
    (h3 : env.addSed s1 s2 = .ok s) :
    (runScript env w).2 = .ok s := by
  unfold runScript
  simp only [hg, h1, h2, h3]

example : (runScript testEnv emptyWorld).2 = .ok ⟨90⟩ := rfl

example :
    (runScript bareEnv emptyWorld).2 =
      .error (.missingGrid "test_grid" "/repo/examples/../tests/test_grid/") :=
  rfl

/-- C1: in every run in which the collaborator operations succeed, the
final value `sed` is produced by a single addition operation (exactly one
addition event in the trace) applied to the two Seds obtained from the
grid, with the Sed from `get_sed(5, 5)` as left operand and the Sed from
`get_sed(3, 5)` as right operand. -/
theorem final_sed_single_addition {G S E : Type} (env : Env G S E)
    (w : World) (sed : S) (h : (runScript env w).2 = .ok sed) :
    additions (runScript env w).1 = 1 ∧
    ∃ g sed1 sed2,
      env.mkGrid grid_name (grid_dir env) = .ok g ∧
      env.getSed g 5 5 = .ok sed1 ∧
      env.getSed g 3 5 = .ok sed2 ∧
      env.addSed sed1 sed2 = .ok sed := by
  obtain ⟨ht, g, s1, s2, hg, h1, h2, h3⟩ := runScript_ok_elim env w sed h
  rw [ht]
  exact ⟨by simp [additions, Event.isAdd], g, s1, s2, hg, h1, h2, h3⟩

/-- Witness for C1 at the concrete successful environment. -/
theorem final_sed_single_addition_witness :
    additions (runScript testEnv emptyWorld).1 = 1 ∧
    ∃ g sed1 sed2,
      testEnv.mkGrid grid_name (grid_dir testEnv) = .ok g ∧
      testEnv.getSed g 5 5 = .ok sed1 ∧
      testEnv.getSed g 3 5 = .ok sed2 ∧
      testEnv.addSed sed1 sed2 = .ok (⟨90⟩ : Sed) :=
  final_sed_single_addition testEnv emptyWorld ⟨90⟩ rfl

/-- C2: in every run, the grid directory passed to the Grid constructor is
the script's directory (the absolute path of the directory of `__file__`)
concatenated with `"/../tests/test_grid/"`, and the constructor receives
the name `test_grid`. -/
theorem grid_dir_from_script_location {G S E : Type} (env : Env G S E)
    (w : World) :
    constructions (runScript env w).1 =
      [(grid_name,
        env.abspath (env.dirname env.file) ++ "/../tests/test_grid/")] := by
  rcases runScript_trace_cases env w with h | h | h | h <;>
    rw [h] <;>
    simp [constructions, Event.construction?, grid_dir, script_path]

/-- C3: in every successful run the script queries the grid exactly twice,
with the pair (5, 5) and then the pair (3, 5), and those two coordinate
pairs are different. -/
theorem grid_queried_twice {G S E : Type} (env : Env G S E) (w : World)
    (sed : S) (h : (runScript env w).2 = .ok sed) :
    gridQueries (runScript env w).1 = [(5, 5), (3, 5)] ∧
      ((5 : Int), (5 : Int)) ≠ ((3 : Int), (5 : Int)) := by
  obtain ⟨ht, -⟩ := runScript_ok_elim env w sed h
  rw [ht]
  exact ⟨by simp [gridQueries, Event.gridQuery?], by decide⟩

/-- Witness for C3 at the concrete successful environment. -/
theorem grid_queried_twice_witness :
    gridQueries (runScript testEnv emptyWorld).1 = [(5, 5), (3, 5)] ∧
      ((5 : Int), (5 : Int)) ≠ ((3 : Int), (5 : Int)) :=
  grid_queried_twice testEnv emptyWorld ⟨90⟩ rfl

/-- C5: the script performs no error handling of its own: a run ends in
error `e` exactly when the first failing collaborator call (grid
construction, one of the two lookups, or the Sed addition) raised that
very `e`; it propagates unchanged, with no recovery, retry, or
reporting. -/
theorem errors_propagate_unchanged {G S E : Type} (env : Env G S E)
    (w : World) (e : E) :
    (runScript env w).2 = .error e ↔
      env.mkGrid grid_name (grid_dir env) = .error e ∨
      ∃ g, env.mkGrid grid_name (grid_dir env) = .ok g ∧
        (env.getSed g 5 5 = .error e ∨
          ∃ s1, env.getSed g 5 5 = .ok s1 ∧
            (env.getSed g 3 5 = .error e ∨
              ∃ s2, env.getSed g 3 5 = .ok s2 ∧
                env.addSed s1 s2 = .error e)) := by
  unfold runScript
  constructor
  · intro h
    split at h
    next e0 heq =>
      simp only [Except.error.injEq] at h
      subst h
      exact Or.inl heq
    next g heq =>
      split at h
      next e0 h1 =>
        simp only [Except.error.injEq] at h
        subst h
        exact Or.inr ⟨g, heq, Or.inl h1⟩
      next s1 h1 =>
        split at h
        next e0 h2 =>
          simp only [Except.error.injEq] at h
          subst h
          exact Or.inr ⟨g, heq, Or.inr ⟨s1, h1, Or.inl h2⟩⟩
        next s2 h2 =>
          split at h
          next e0 h3 =>
            simp only [Except.error.injEq] at h
            subst h
            exact Or.inr ⟨g, heq, Or.inr ⟨s1, h1, Or.inr ⟨s2, h2, h3⟩⟩⟩
          next s h3 => simp at h
  · intro h
    rcases h with hg | ⟨g, hg, h1 | ⟨s1, h1, h2 | ⟨s2, h2, h3⟩⟩⟩
    · simp [hg]
    · simp [hg, h1]
    · simp [hg, h1, h2]
    · simp [hg, h1, h2, h3]

/-- Witness for C5 at a concrete environment whose grid directory is
missing. -/
theorem errors_propagate_unchanged_witness :
    (runScript bareEnv emptyWorld).2 =
        .error (.missingGrid grid_name (grid_dir bareEnv)) ↔
      bareEnv.mkGrid grid_name (grid_dir bareEnv) =
          .error (.missingGrid grid_name (grid_dir bareEnv)) ∨
      ∃ g, bareEnv.mkGrid grid_name (grid_dir bareEnv) = .ok g ∧
        (bareEnv.getSed g 5 5 =
            .error (.missingGrid grid_name (grid_dir bareEnv)) ∨
          ∃ s1, bareEnv.getSed g 5 5 = .ok s1 ∧
            (bareEnv.getSed g 3 5 =
                .error (.missingGrid grid_name (grid_dir bareEnv)) ∨
              ∃ s2, bareEnv.getSed g 3 5 = .ok s2 ∧
                bareEnv.addSed s1 s2 =
                  .error (.missingGrid grid_name (grid_dir bareEnv)))) :=
  errors_propagate_unchanged bareEnv emptyWorld
    (.missingGrid grid_name (grid_dir bareEnv))

/-- C7: the script produces no observable output and accepts no external
input: every event in every trace is a grid-library call (never a print or
a file write, so the computed `sed` is never emitted), and the run does
not depend on command-line arguments or environment variables. -/
theorem no_output_no_input {G S E : Type} (env : Env G S E) (w : World) :
    (runScript env w).1.all Event.isLibraryCall = true ∧
      runScript env w = runScript env emptyWorld := by
  refine ⟨?_, rfl⟩
  rcases runScript_trace_cases env w with h | h | h | h <;> rw [h] <;> rfl

/-- Witness for C7 at the concrete successful environment. -/
theorem no_output_no_input_witness :
    (runScript testEnv emptyWorld).1.all Event.isLibraryCall = true ∧
      runScript testEnv emptyWorld = runScript testEnv emptyWorld :=
  no_output_no_input testEnv emptyWorld

/-- C8: the Grid is constructed exactly once per run (one construction
event, at the head of the trace, so before any lookup), and it is treated
as read-only thereafter: both lookups of a successful run are applied to
the very grid value the constructor returned, which is never rebound or
replaced. -/
theorem grid_constructed_once_read_only {G S E : Type} (env : Env G S E)
    (w : World) :
    (constructions (runScript env w).1).length = 1 ∧
    (runScript env w).1.head? = some (.mkGrid grid_name (grid_dir env)) ∧
    ∀ sed : S, (runScript env w).2 = .ok sed →
      ∃ g, env.mkGrid grid_name (grid_dir env) = .ok g ∧
        (∃ s1, env.getSed g 5 5 = .ok s1) ∧
        ∃ s2, env.getSed g 3 5 = .ok s2 := by
  refine ⟨?_, ?_, ?_⟩
  · rcases runScript_trace_cases env w with h | h | h | h <;>
      rw [h] <;> simp [constructions, Event.construction?]
  · rcases runScript_trace_cases env w with h | h | h | h <;> rw [h] <;> rfl
  · intro sed h
    obtain ⟨-, g, s1, s2, hg, h1, h2, -⟩ := runScript_ok_elim env w sed h
    exact ⟨g, hg, ⟨s1, h1⟩, s2, h2⟩

/-- Witness for C8 at the concrete successful environment. -/
theorem grid_constructed_once_read_only_witness :
    (constructions (runScript testEnv emptyWorld).1).length = 1 ∧
    (runScript testEnv emptyWorld).1.head? =
      some (.mkGrid grid_name (grid_dir testEnv)) ∧
    ∀ sed : Sed, (runScript testEnv emptyWorld).2 = .ok sed →
      ∃ g, testEnv.mkGrid grid_name (grid_dir testEnv) = .ok g ∧
        (∃ s1, testEnv.getSed g 5 5 = .ok s1) ∧
        ∃ s2, testEnv.getSed g 3 5 = .ok s2 :=
  grid_constructed_once_read_only testEnv emptyWorld

/-- C9: in every successful run the two grid lookups share the same
metallicity index (second argument 5 in both calls) and differ only in the
age index (first argument 5 versus 3). -/
theorem lookups_share_metallicity {G S E : Type} (env : Env G S E)
    (w : World) (sed : S) (h : (runScript env w).2 = .ok sed) :
    (gridQueries (runScript env w).1).map Prod.snd = [5, 5] ∧
    (gridQueries (runScript env w).1).map Prod.fst = [5, 3] ∧
    (5 : Int) ≠ (3 : Int) := by
  obtain ⟨ht, -⟩ := runScript_ok_elim env w sed h
  rw [ht]
  refine ⟨by simp [gridQueries, Event.gridQuery?],
    by simp [gridQueries, Event.gridQuery?], by decide⟩

/-- Witness for C9 at the concrete successful environment. -/
theorem lookups_share_metallicity_witness :
    (gridQueries (runScript testEnv emptyWorld).1).map Prod.snd = [5, 5] ∧
    (gridQueries (runScript testEnv emptyWorld).1).map Prod.fst = [5, 3] ∧
    (5 : Int) ≠ (3 : Int) :=
  lookups_share_metallicity testEnv emptyWorld ⟨90⟩ rfl

/-- C4: under the precondition that the grid directory is valid and holds
a grid named `test_grid` (the store yields a grid at the derived
directory) whose dimensions make (5, 5) and (3, 5) valid indices, both
`get_sed` calls return a Sed without raising, the addition succeeds and
returns a Sed, and the run succeeds end to end: no error branch is
reached.  Stated over the spec-modelled grid library. -/
theorem valid_grid_run_succeeds (store : String → String → Option Grid)
    (file0 : String) (dn ap : String → String) (w : World) (g : Grid)
    (hstore :
      store grid_name (grid_dir (specEnv store file0 dn ap)) = some g)
    (hAge : 5 < g.nAge) (hZ : 5 < g.nZ) :
    (runScript (specEnv store file0 dn ap) w).2 =
      .ok (Sed.add (g.sedAt 5 5) (g.sedAt 3 5)) := by
  have hmk : (specEnv store file0 dn ap).mkGrid grid_name
      (grid_dir (specEnv store file0 dn ap)) = .ok g := by
    show Grid.construct store grid_name _ = _
    unfold Grid.construct
    rw [hstore]
  have h55 : Grid.get_sed g 5 5 = .ok (g.sedAt 5 5) := by
    unfold Grid.get_sed
    rw [if_pos (by omega :
      (0 : Int) ≤ 5 ∧ (5 : Int) < (g.nAge : Int) ∧
        (0 : Int) ≤ 5 ∧ (5 : Int) < (g.nZ : Int))]
    rfl
  have h35 : Grid.get_sed g 3 5 = .ok (g.sedAt 3 5) := by
    unfold Grid.get_sed
    rw [if_pos (by omega :
      (0 : Int) ≤ 3 ∧ (3 : Int) < (g.nAge : Int) ∧
        (0 : Int) ≤ 5 ∧ (5 : Int) < (g.nZ : Int))]
    rfl
  exact runScript_ok_intro (specEnv store file0 dn ap) w g
    (g.sedAt 5 5) (g.sedAt 3 5) (Sed.add (g.sedAt 5 5) (g.sedAt 3 5))
    hmk h55 h35 rfl

/-- Witness for C4 at the concrete store holding `testGrid`. -/
theorem valid_grid_run_succeeds_witness :
    testStore grid_name (grid_dir (specEnv testStore "/repo/examples/sed.py"
        (fun _ => "/repo/examples") (fun s => s))) = some testGrid ∧
    5 < testGrid.nAge ∧ 5 < testGrid.nZ ∧
    (runScript (specEnv testStore "/repo/examples/sed.py"
        (fun _ => "/repo/examples") (fun s => s)) emptyWorld).2 =
      .ok (Sed.add (testGrid.sedAt 5 5) (testGrid.sedAt 3 5)) :=
  ⟨rfl, by decide, by decide,
    valid_grid_run_succeeds testStore "/repo/examples/sed.py"
      (fun _ => "/repo/examples") (fun s => s) emptyWorld testGrid rfl
      (by decide) (by decide)⟩

/-- C6: in the spec-modelled grid library, every out-of-range coordinate
pair (negative, or at least the corresponding grid dimension) makes
`get_sed` fail with an index-range error rather than return a Sed. -/
theorem out_of_range_get_sed_fails (g : Grid) (ia iZ : Int)
    (h : ¬(0 ≤ ia ∧ ia < (g.nAge : Int) ∧ 0 ≤ iZ ∧ iZ < (g.nZ : Int))) :
    g.get_sed ia iZ = .error (.indexOutOfRange ia iZ) := by
  unfold Grid.get_sed
  rw [if_neg h]

/-- Witness for C6 at a negative age index on the concrete grid. -/
theorem out_of_range_get_sed_fails_witness :
    ¬((0 : Int) ≤ -1 ∧ (-1 : Int) < (testGrid.nAge : Int) ∧
        (0 : Int) ≤ 0 ∧ (0 : Int) < (testGrid.nZ : Int)) ∧
    testGrid.get_sed (-1) 0 = .error (.indexOutOfRange (-1) 0) :=
  ⟨by decide, out_of_range_get_sed_fails testGrid (-1) 0 (by decide)⟩

/-- C10: the script is deterministic relative to its collaborators: with
the collaborator behaviour fixed, the run (trace and final value) is the
same in any two ambient worlds — the script reads no command-line
arguments, no environment variables, and no other ambient input. -/
theorem script_deterministic {G S E : Type} (env : Env G S E)
    (w₁ w₂ : World) : runScript env w₁ = runScript env w₂ := rfl

end SedScript
